import Mathlib

/-!
Verification of the vessel-efficiency decision-support program
(src/vessel_efficiency_app.py) against its natural-language specification.

The program is embedded shallowly: Python floats become rationals (ℚ),
dictionary lookups that can raise KeyError become Option-valued lookups,
and float division, which raises ZeroDivisionError on a zero divisor,
becomes an Option-valued division.  The Streamlit rendering layer is out
of scope except for the data actually placed in the summary table.
-/

namespace VesselEfficiency

/-- Embedding of the EMISSION_FACTORS dict (tCO2 per tonne of fuel),
in the source's insertion order. -/
def EMISSION_FACTORS : List (String × ℚ) :=
  [("VLSFO", 3.114), ("MGO", 3.206), ("LNG", 2.750), ("Methanol", 1.375), ("Ammonia", 0)]

/-- Embedding of the FUEL_PRICES dict ($ per tonne), in the source's order. -/
def FUEL_PRICES : List (String × ℚ) :=
  [("VLSFO", 600), ("MGO", 700), ("LNG", 800), ("Methanol", 900), ("Ammonia", 1000)]

def DISCOUNT_RATE : ℚ := 0.07

def YEARS : ℕ := 10

def EFFICIENCY_DEGRADATION_RATE : ℚ := 0.01

def DRYDOCK_CYCLE : ℕ := 5

/-- Python dict lookup d[k]: returns the value bound to the key, or none
(modelling the KeyError) when the key is absent. -/
def dictLookup {α : Type} : List (String × α) → String → Option α
  | [], _ => none
  | (k, v) :: rest, key => if k == key then some v else dictLookup rest key

/-- Key list of a dict, in insertion order (Python iteration order). -/
def dictKeys {α : Type} (table : List (String × α)) : List String :=
  table.map Prod.fst

/-- The supported fuel names, in the iteration order of EMISSION_FACTORS. -/
def fuelKeys : List String := dictKeys EMISSION_FACTORS

/-- Embedding of the Vessel class. -/
structure Vessel where
  dwt : ℚ
  fuel_type : String
  annual_fuel_consumption : ℚ

/-- calculate_emissions: fuel_consumed * EMISSION_FACTORS[fuel_type];
none models the KeyError raised for an unknown fuel type. -/
def calculate_emissions (fuel_type : String) (fuel_consumed : ℚ) : Option ℚ :=
  (dictLookup EMISSION_FACTORS fuel_type).map (fun factor => fuel_consumed * factor)

/-- calculate_carbon_tax: emissions * tax_rate. -/
def calculate_carbon_tax (emissions : ℚ) (tax_rate : ℚ) : ℚ :=
  emissions * tax_rate

/-- apply_tech_efficiency_reduction: base_fuel * (1 - efficiency_gain). -/
def apply_tech_efficiency_reduction (base_fuel : ℚ) (efficiency_gain : ℚ) : ℚ :=
  base_fuel * (1 - efficiency_gain)

/-- get_degradation_multiplier: (1 + EFFICIENCY_DEGRADATION_RATE) ** (year % DRYDOCK_CYCLE). -/
def get_degradation_multiplier (year : ℕ) : ℚ :=
  (1 + EFFICIENCY_DEGRADATION_RATE) ^ (year % DRYDOCK_CYCLE)

/-- The summand cf / ((1 + discount_rate) ** i) of calculate_npv, with the
accumulated sum threaded on the right; Python raises ZeroDivisionError when
the divisor (1 + discount_rate) ** i is zero, modelled by none.
Note Python evaluates 0.0 ** 0 to 1.0, exactly as ℚ does. -/
def calculate_npv_from (discount_rate : ℚ) : List ℚ → ℕ → Option ℚ
  | [], _ => some 0
  | cf :: rest, i =>
      if (1 + discount_rate) ^ i = 0 then none
      else do
        let s ← calculate_npv_from discount_rate rest (i + 1)
        pure (cf / (1 + discount_rate) ^ i + s)

/-- calculate_npv: sum of cf / ((1 + discount_rate) ** i) over the enumerated
cash flows; none models the ZeroDivisionError raised when 1 + discount_rate = 0
and some index i ≥ 1 is reached. -/
def calculate_npv (cash_flows : List ℚ) (discount_rate : ℚ) : Option ℚ :=
  calculate_npv_from discount_rate cash_flows 0

/-- calculate_payback_period: running cumulative sum; returns i + 1 (Sum.inl) at
the first index whose cumulative sum is ≥ 0, else the string "> {YEARS}"
(Sum.inr), which for YEARS = 10 is "> 10". -/
def calculate_payback_period_loop : List ℚ → ℚ → ℕ → ℕ ⊕ String
  | [], _, _ => Sum.inr ("> " ++ toString YEARS)
  | cf :: rest, cumulative, i =>
      let c := cumulative + cf
      if 0 ≤ c then Sum.inl (i + 1) else calculate_payback_period_loop rest c (i + 1)

/-- calculate_payback_period entry point: cumulative starts at 0, index at 0. -/
def calculate_payback_period (cash_flows : List ℚ) : ℕ ⊕ String :=
  calculate_payback_period_loop cash_flows 0 0

/-- One scenario's per-year outputs as built by each loop of the source:
the emissions, costs and cash_flows lists appended to year by year. -/
structure ScenarioData where
  emissions : List ℚ
  costs : List ℚ
  cash_flows : List ℚ
deriving DecidableEq

/-- Runs a per-year body for count consecutive years starting at start,
collecting the (emissions, cost, cash flow) triple of each year; any
exception (none) in a year aborts the whole loop, as in Python. -/
def scenarioRows (yearFn : ℕ → Option (ℚ × ℚ × ℚ)) : ℕ → ℕ → Option (List (ℚ × ℚ × ℚ))
  | _, 0 => some []
  | start, count + 1 => do
      let row ← yearFn start
      let rest ← scenarioRows yearFn (start + 1) count
      pure (row :: rest)

/-- Packs the collected per-year triples of a loop into the three lists the
source appends to. -/
def buildScenario (yearFn : ℕ → Option (ℚ × ℚ × ℚ)) : Option ScenarioData := do
  let rows ← scenarioRows yearFn 0 YEARS
  pure ⟨rows.map (fun r => r.1), rows.map (fun r => r.2.1), rows.map (fun r => r.2.2)⟩

/-- Body of the Baseline loop for one year: fuel = consumption * degradation
multiplier, emissions and price looked up for the vessel's own fuel, total =
fuel cost + carbon tax + opex, cash flow = -total.  No CAPEX. -/
def baseline_year (vessel : Vessel) (tax_rate opex : ℚ) (year : ℕ) : Option (ℚ × ℚ × ℚ) := do
  let mult := get_degradation_multiplier year
  let fuel := vessel.annual_fuel_consumption * mult
  let e ← calculate_emissions vessel.fuel_type fuel
  let t := calculate_carbon_tax e tax_rate
  let price ← dictLookup FUEL_PRICES vessel.fuel_type
  let fc := fuel * price
  let total := fc + t + opex
  pure (e, total, -total)

/-- The Baseline loop of the source over years 0 … YEARS-1. -/
def baseline_scenario (vessel : Vessel) (tax_rate opex : ℚ) : Option ScenarioData :=
  buildScenario (baseline_year vessel tax_rate opex)

/-- Body of the Tech Upgrade loop for one year: the degraded fuel burn is
reduced by the efficiency gain, and CAPEX is added to the total only at
year 0. -/
def tech_year (vessel : Vessel) (tax_rate opex capex efficiency_gain : ℚ) (year : ℕ) :
    Option (ℚ × ℚ × ℚ) := do
  let mult := get_degradation_multiplier year
  let fuel := apply_tech_efficiency_reduction (vessel.annual_fuel_consumption * mult) efficiency_gain
  let e ← calculate_emissions vessel.fuel_type fuel
  let t := calculate_carbon_tax e tax_rate
  let price ← dictLookup FUEL_PRICES vessel.fuel_type
  let fc := fuel * price
  let total := fc + t + opex + (if year = 0 then capex else 0)
  pure (e, total, -total)

/-- The Tech Upgrade loop of the source over years 0 … YEARS-1. -/
def tech_scenario (vessel : Vessel) (tax_rate opex capex efficiency_gain : ℚ) :
    Option ScenarioData :=
  buildScenario (tech_year vessel tax_rate opex capex efficiency_gain)

/-- Body of a fuel-switch loop for one year: like Baseline but with the
alternative fuel's emission factor and price, plus CAPEX at year 0 and no
efficiency gain. -/
def switch_year (vessel : Vessel) (alt_fuel : String) (tax_rate opex capex : ℚ) (year : ℕ) :
    Option (ℚ × ℚ × ℚ) := do
  let mult := get_degradation_multiplier year
  let fuel := vessel.annual_fuel_consumption * mult
  let e ← calculate_emissions alt_fuel fuel
  let t := calculate_carbon_tax e tax_rate
  let price ← dictLookup FUEL_PRICES alt_fuel
  let fc := fuel * price
  let total := fc + t + opex + (if year = 0 then capex else 0)
  pure (e, total, -total)

/-- The fuel-switch loop of the source for one alternative fuel. -/
def switch_scenario (vessel : Vessel) (alt_fuel : String) (tax_rate opex capex : ℚ) :
    Option ScenarioData :=
  buildScenario (switch_year vessel alt_fuel tax_rate opex capex)

/-- The labelled fuel-switch scenarios for a list of alternative fuels,
in iteration order. -/
def switch_scenarios_list (vessel : Vessel) (tax_rate opex capex : ℚ) :
    List String → Option (List (String × ScenarioData))
  | [] => some []
  | alt_fuel :: rest => do
      let s ← switch_scenario vessel alt_fuel tax_rate opex capex
      let others ← switch_scenarios_list vessel tax_rate opex capex rest
      pure (("Switch to " ++ alt_fuel, s) :: others)

/-- The full scenarios dict of one run, in the source's insertion order:
Baseline, Tech Upgrade, then one "Switch to {fuel}" per supported fuel other
than the vessel's own (the continue in the source's loop). -/
def run_scenarios (vessel : Vessel) (tax_rate opex capex efficiency_gain : ℚ) :
    Option (List (String × ScenarioData)) := do
  let b ← baseline_scenario vessel tax_rate opex
  let t ← tech_scenario vessel tax_rate opex capex efficiency_gain
  let alts ← switch_scenarios_list vessel tax_rate opex capex
      (fuelKeys.filter (fun alt_fuel => alt_fuel != vessel.fuel_type))
  pure (("Baseline", b) :: ("Tech Upgrade", t) :: alts)

/-- The npv_summary and payback_summary entries contributed by the
alternative-fuel loop, for a given list of alternative fuels, in order.
Both dicts receive an entry for every fuel-switch scenario. -/
def switch_summaries_list (vessel : Vessel) (tax_rate opex capex : ℚ) :
    List String → Option (List (String × ℚ) × List (String × (ℕ ⊕ String)))
  | [] => some ([], [])
  | alt_fuel :: rest => do
      let s ← switch_scenario vessel alt_fuel tax_rate opex capex
      let n ← calculate_npv s.cash_flows DISCOUNT_RATE
      let p := calculate_payback_period s.cash_flows
      let others ← switch_summaries_list vessel tax_rate opex capex rest
      pure (("Switch to " ++ alt_fuel, n) :: others.1, ("Switch to " ++ alt_fuel, p) :: others.2)

/-- The npv_summary and payback_summary dicts of one run, as association
lists in insertion order.  Mirrors the source exactly: npv_summary gets
Baseline, Tech Upgrade, then the switches; payback_summary gets only
Tech Upgrade and the switches (the Baseline block never writes to it). -/
def run_summary (vessel : Vessel) (tax_rate opex capex efficiency_gain : ℚ) :
    Option (List (String × ℚ) × List (String × (ℕ ⊕ String))) := do
  let b ← baseline_scenario vessel tax_rate opex
  let nb ← calculate_npv b.cash_flows DISCOUNT_RATE
  let t ← tech_scenario vessel tax_rate opex capex efficiency_gain
  let nt ← calculate_npv t.cash_flows DISCOUNT_RATE
  let pt := calculate_payback_period t.cash_flows
  let others ← switch_summaries_list vessel tax_rate opex capex
      (fuelKeys.filter (fun alt_fuel => alt_fuel != vessel.fuel_type))
  pure (("Baseline", nb) :: ("Tech Upgrade", nt) :: others.1, ("Tech Upgrade", pt) :: others.2)

/-- The "Payback Period (years)" column of the summary table: for every key k
of npv_summary, payback_summary.get(k, "-"), i.e. the stored payback value
when present and the placeholder string "-" otherwise. -/
def table_payback_column (npv_summary : List (String × ℚ))
    (payback_summary : List (String × (ℕ ⊕ String))) : List (ℕ ⊕ String) :=
  (dictKeys npv_summary).map (fun k => (dictLookup payback_summary k).getD (Sum.inr "-"))

/-! ## General helper lemmas -/

lemma dictLookup_cons {α : Type} (k : String) (v : α) (rest : List (String × α)) (key : String) :
    dictLookup ((k, v) :: rest) key = if k = key then some v else dictLookup rest key := by
  by_cases h : k = key <;> simp [dictLookup, h]

lemma list_sum_nonpos {l : List ℚ} (h : ∀ x ∈ l, x ≤ 0) : l.sum ≤ 0 := by
  induction l with
  | nil => simp
  | cons a t ih =>
      simp only [List.sum_cons]
      have ha := h a (by simp)
      have ht := ih (fun x hx => h x (by simp [hx]))
      linarith

lemma one_le_degradation (y : ℕ) : 1 ≤ get_degradation_multiplier y := by
  unfold get_degradation_multiplier
  exact one_le_pow₀ (by norm_num [EFFICIENCY_DEGRADATION_RATE])

lemma degradation_nonneg (y : ℕ) : 0 ≤ get_degradation_multiplier y :=
  le_trans zero_le_one (one_le_degradation y)

lemma take_sum_neg {l : List ℚ} (h : ∀ x ∈ l, x < 0) {j : ℕ} (hj : j < l.length) :
    (l.take (j + 1)).sum < 0 := by
  cases l with
  | nil => simp at hj
  | cons a t =>
      rw [List.take_succ_cons, List.sum_cons]
      have ha : a < 0 := h a (by simp)
      have ht : (t.take j).sum ≤ 0 := by
        apply list_sum_nonpos
        intro x hx
        exact le_of_lt (h x (by simp [List.mem_of_mem_take hx]))
      linarith

lemma payback_loop_spec (cfs : List ℚ) :
    ∀ (acc : ℚ) (i : ℕ),
      calculate_payback_period_loop cfs acc i =
        (match (List.range cfs.length).find?
            (fun j => decide (0 ≤ acc + ((cfs.take (j + 1)).sum))) with
         | some j => Sum.inl (i + j + 1)
         | none => Sum.inr ("> " ++ toString YEARS)) := by
  induction cfs with
  | nil => intro acc i; simp [calculate_payback_period_loop]
  | cons cf rest ih =>
      intro acc i
      by_cases hc : 0 ≤ acc + cf
      · rw [List.length_cons, List.range_succ_eq_map]
        rw [List.find?_cons_of_pos _ (by simp [hc])]
        simp [calculate_payback_period_loop, hc]
      · rw [List.length_cons, List.range_succ_eq_map]
        rw [List.find?_cons_of_neg _ (by simp [hc])]
        rw [List.find?_map]
        have hcomp : ((fun j => decide (0 ≤ acc + (((cf :: rest).take (j + 1)).sum))) ∘ Nat.succ)
            = (fun j => decide (0 ≤ (acc + cf) + ((rest.take (j + 1)).sum))) := by
          funext j
          simp [Function.comp, List.take_succ_cons, add_assoc]
        rw [hcomp]
        simp only [calculate_payback_period_loop, hc, if_false]
        rw [ih (acc + cf) (i + 1)]
        cases hfind : (List.range rest.length).find?
            (fun j => decide (0 ≤ acc + cf + (rest.take (j + 1)).sum)) with
        | none => simp
        | some j =>
            simp only [Option.map_some]
            have : i + 1 + j + 1 = i + (j + 1) + 1 := by omega
            simp [this]

/-! ## C1: payback period -/

/-- C1: calculate_payback_period runs a cumulative sum starting at 0 and returns
i + 1 (1-based) at the first index i whose cumulative prefix sum is ≥ 0; when no
prefix sum is ≥ 0 it returns the non-numeric sentinel "> 10"; in particular every
all-negative sequence yields the sentinel. -/
theorem C1_payback_period (cfs neg : List ℚ) (hneg : ∀ cf ∈ neg, cf < 0) :
    (calculate_payback_period cfs =
      (match (List.range cfs.length).find?
          (fun i => decide (0 ≤ ((cfs.take (i + 1)).sum))) with
       | some i => Sum.inl (i + 1)
       | none => Sum.inr ("> " ++ toString YEARS))) ∧
    calculate_payback_period neg = Sum.inr ("> " ++ toString YEARS) := by
  constructor
  · have h := payback_loop_spec cfs 0 0
    simpa [calculate_payback_period] using h
  · rw [calculate_payback_period, payback_loop_spec neg 0 0]
    have hnone : (List.range neg.length).find?
        (fun j => decide (0 ≤ 0 + ((neg.take (j + 1)).sum))) = none := by
      rw [List.find?_eq_none]
      intro j hj
      simp only [List.mem_range] at hj
      simp only [decide_eq_true_eq, zero_add]
      exact not_le.mpr (take_sum_neg hneg hj)
    rw [hnone]

/-- C1 witness: evaluation at the concrete sequences [-2, 1, 5] (payback in
year 3) and [-1, -2] (all negative, sentinel). -/
theorem C1_payback_period_witness :
    (calculate_payback_period [-2, 1, 5] =
      (match (List.range ([-2, 1, 5] : List ℚ).length).find?
          (fun i => decide (0 ≤ ((([-2, 1, 5] : List ℚ).take (i + 1)).sum))) with
       | some i => Sum.inl (i + 1)
       | none => Sum.inr ("> " ++ toString YEARS))) ∧
    calculate_payback_period [-1, -2] = Sum.inr ("> " ++ toString YEARS) :=
  C1_payback_period [-2, 1, 5] [-1, -2] (by decide)

/-! ## C5: degradation multiplier -/

/-- C5: get_degradation_multiplier equals (1 + degradationRate) ^ (year mod
drydockCycle) with rate 0.01 and cycle 5; it is always ≥ 1, equals 1 at year 0
and at year drydockCycle (cycle reset), and is strictly increasing on
[0, drydockCycle). -/
theorem C5_degradation_multiplier (y a b : ℕ) (hab : a < b) (hb : b < DRYDOCK_CYCLE) :
    get_degradation_multiplier y = (1 + EFFICIENCY_DEGRADATION_RATE) ^ (y % DRYDOCK_CYCLE) ∧
    1 ≤ get_degradation_multiplier y ∧
    get_degradation_multiplier 0 = 1 ∧
    get_degradation_multiplier DRYDOCK_CYCLE = 1 ∧
    get_degradation_multiplier a < get_degradation_multiplier b := by
  refine ⟨rfl, one_le_degradation y, by norm_num [get_degradation_multiplier],
    by norm_num [get_degradation_multiplier, DRYDOCK_CYCLE], ?_⟩
  unfold get_degradation_multiplier
  rw [Nat.mod_eq_of_lt (lt_trans hab hb), Nat.mod_eq_of_lt hb]
  exact pow_lt_pow_right₀ (by norm_num [EFFICIENCY_DEGRADATION_RATE]) hab

/-- C5 witness: evaluation at year 7 and the strictly ordered pair 1 < 3 within
the drydock cycle. -/
theorem C5_degradation_multiplier_witness :
    get_degradation_multiplier 7 = (1 + EFFICIENCY_DEGRADATION_RATE) ^ (7 % DRYDOCK_CYCLE) ∧
    1 ≤ get_degradation_multiplier 7 ∧
    get_degradation_multiplier 0 = 1 ∧
    get_degradation_multiplier DRYDOCK_CYCLE = 1 ∧
    get_degradation_multiplier 1 < get_degradation_multiplier 3 :=
  C5_degradation_multiplier 7 1 3 (by norm_num) (by norm_num [DRYDOCK_CYCLE])

/-! ## C6: emissions lookup -/

/-- C6: calculate_emissions returns q * emissionFactor[fuelType] for each of
the five supported fuels and fails (KeyError, modelled none) exactly when the
fuel type is outside the table; no default is substituted. -/
theorem C6_emissions_table (f : String) (q : ℚ) (hq : 0 ≤ q) :
    calculate_emissions f q =
      (if f = "VLSFO" then some (q * 3.114)
       else if f = "MGO" then some (q * 3.206)
       else if f = "LNG" then some (q * 2.750)
       else if f = "Methanol" then some (q * 1.375)
       else if f = "Ammonia" then some (q * 0)
       else none) := by
  by_cases h1 : f = "VLSFO"
  · subst h1; simp +decide [calculate_emissions, EMISSION_FACTORS, dictLookup_cons, dictLookup]
  by_cases h2 : f = "MGO"
  · subst h2; simp +decide [calculate_emissions, EMISSION_FACTORS, dictLookup_cons, dictLookup]
  by_cases h3 : f = "LNG"
  · subst h3; simp +decide [calculate_emissions, EMISSION_FACTORS, dictLookup_cons, dictLookup]
  by_cases h4 : f = "Methanol"
  · subst h4; simp +decide [calculate_emissions, EMISSION_FACTORS, dictLookup_cons, dictLookup]
  by_cases h5 : f = "Ammonia"
  · subst h5; simp +decide [calculate_emissions, EMISSION_FACTORS, dictLookup_cons, dictLookup]
  simp [calculate_emissions, EMISSION_FACTORS, dictLookup_cons, dictLookup,
    h1, h2, h3, h4, h5, Ne.symm h1, Ne.symm h2, Ne.symm h3, Ne.symm h4, Ne.symm h5]

/-- C6 witness: a supported fuel (LNG at quantity 2) and an unsupported one
(Diesel), evaluated concretely. -/
theorem C6_emissions_table_witness :
    calculate_emissions "LNG" 2 = some (2 * 2.750) ∧ calculate_emissions "Diesel" 2 = none := by
  constructor
  · rw [C6_emissions_table "LNG" 2 (by norm_num), if_neg (by decide), if_neg (by decide),
      if_pos rfl]
  · rw [C6_emissions_table "Diesel" 2 (by norm_num), if_neg (by decide), if_neg (by decide),
      if_neg (by decide), if_neg (by decide), if_neg (by decide)]

/-! ## C3 and C4: net present value -/

lemma calculate_npv_from_eq {r : ℚ} (h : 1 + r ≠ 0) (cfs : List ℚ) :
    ∀ i : ℕ, calculate_npv_from r cfs i =
      some (((List.range cfs.length).map (fun j => cfs.getD j 0 / (1 + r) ^ (i + j))).sum) := by
  induction cfs with
  | nil => intro i; simp [calculate_npv_from]
  | cons cf rest ih =>
      intro i
      have hpow : (1 + r) ^ i ≠ 0 := pow_ne_zero _ h
      rw [calculate_npv_from, if_neg hpow, List.length_cons, List.range_succ_eq_map,
        List.map_cons, List.sum_cons, List.map_map]
      have hcomp : ((fun j => (cf :: rest).getD j 0 / (1 + r) ^ (i + j)) ∘ Nat.succ)
          = (fun j => rest.getD j 0 / (1 + r) ^ ((i + 1) + j)) := by
        funext j
        have he : i + (j + 1) = (i + 1) + j := by omega
        simp [Function.comp, List.getD_cons_succ, he]
      rw [hcomp, ih (i + 1)]
      simp [Option.bind_eq_bind]

lemma calculate_npv_eq {r : ℚ} (h : 1 + r ≠ 0) (cfs : List ℚ) :
    calculate_npv cfs r =
      some (((List.range cfs.length).map (fun j => cfs.getD j 0 / (1 + r) ^ j)).sum) := by
  simpa [calculate_npv] using calculate_npv_from_eq h cfs 0

lemma npv_replicate_zero {r : ℚ} (h : 1 + r ≠ 0) (n : ℕ) :
    ∀ i, calculate_npv_from r (List.replicate n (0 : ℚ)) i = some 0 := by
  induction n with
  | zero => intro i; simp [calculate_npv_from]
  | succ m ih =>
      intro i
      rw [List.replicate_succ, calculate_npv_from, if_neg (pow_ne_zero _ h), ih (i + 1)]
      simp

/-- C3 amended: for every discount rate r with 1 + r ≠ 0, calculate_npv returns
the sum of cashFlows[i] / (1+r)^i with year 0 undiscounted, npv([c]) = c, and
npv of an all-zero sequence is 0; a single-element sequence even returns c at
r = -1, since the year-0 divisor is (1 + r)^0 = 1. -/
theorem C3_npv_formula (cfs : List ℚ) (c r : ℚ) (h : 1 + r ≠ 0) :
    calculate_npv cfs r =
      some (((List.range cfs.length).map (fun i => cfs.getD i 0 / (1 + r) ^ i)).sum) ∧
    calculate_npv [c] r = some c ∧
    calculate_npv [c] (-1) = some c ∧
    calculate_npv (List.replicate cfs.length 0) r = some 0 := by
  refine ⟨calculate_npv_eq h cfs, ?_, ?_, ?_⟩
  · norm_num [calculate_npv, calculate_npv_from]
  · norm_num [calculate_npv, calculate_npv_from]
  · exact npv_replicate_zero h cfs.length 0

/-- C3 counterexample: the claim quantifies over every discount rate, but at
discount rate -1 an all-zero sequence of length 3 makes the code raise
ZeroDivisionError (modelled none) instead of returning 0. -/
theorem C3_counterexample : calculate_npv [0, 0, 0] (-1) = none := by
  norm_num [calculate_npv, calculate_npv_from]

/-- C3 witness: concrete evaluation at cash flows [-5, 3], single flow 42,
discount rate 0.07. -/
theorem C3_npv_formula_witness :
    calculate_npv [-5, 3] 0.07 =
      some (((List.range ([-5, 3] : List ℚ).length).map
        (fun i => ([-5, 3] : List ℚ).getD i 0 / (1 + 0.07) ^ i)).sum) ∧
    calculate_npv [42] 0.07 = some 42 ∧
    calculate_npv [42] (-1) = some 42 ∧
    calculate_npv (List.replicate ([-5, 3] : List ℚ).length 0) 0.07 = some 0 :=
  C3_npv_formula [-5, 3] 42 0.07 (by norm_num)

/-- C4 amended: calculate_npv is total (returns a value) for every finite
cash-flow sequence and every discount rate r with 1 + r ≠ 0; at r = -1 the
division by (1 + r)^i raises ZeroDivisionError once i ≥ 1 is reached. -/
theorem C4_npv_total (cfs : List ℚ) (r : ℚ) (h : 1 + r ≠ 0) :
    (calculate_npv cfs r).isSome = true := by
  rw [calculate_npv_eq h]; rfl

/-- C4 counterexample: at discount rate -1 and the two-element sequence [0, 0]
the code divides by (1 + (-1))^1 = 0 and raises, so npv is not total for every
finite numeric input. -/
theorem C4_counterexample : calculate_npv [0, 0] (-1) = none := by
  norm_num [calculate_npv, calculate_npv_from]

/-- C4 witness: totality evaluated at [1, 2, 3] and discount rate 0.07. -/
theorem C4_npv_total_witness : (calculate_npv [1, 2, 3] 0.07).isSome = true :=
  C4_npv_total [1, 2, 3] 0.07 (by norm_num)

/-! ## Scenario-generation lemmas -/

lemma fuel_lookups (f : String) (hf : f ∈ fuelKeys) :
    ∃ ef pr, dictLookup EMISSION_FACTORS f = some ef ∧ dictLookup FUEL_PRICES f = some pr ∧
      0 ≤ ef ∧ 0 ≤ pr := by
  simp only [fuelKeys, dictKeys, EMISSION_FACTORS, List.map_cons, List.map_nil,
    List.mem_cons, List.not_mem_nil, or_false] at hf
  rcases hf with h | h | h | h | h <;> subst h
  · exact ⟨3.114, 600, rfl, rfl, by norm_num, by norm_num⟩
  · exact ⟨3.206, 700, rfl, rfl, by norm_num, by norm_num⟩
  · exact ⟨2.750, 800, rfl, rfl, by norm_num, by norm_num⟩
  · exact ⟨1.375, 900, rfl, rfl, by norm_num, by norm_num⟩
  · exact ⟨0, 1000, rfl, rfl, by norm_num, by norm_num⟩

lemma scenarioRows_eq {yearFn : ℕ → Option (ℚ × ℚ × ℚ)} {g : ℕ → ℚ × ℚ × ℚ}
    (h : ∀ y, yearFn y = some (g y)) :
    ∀ (count start : ℕ), scenarioRows yearFn start count = some ((List.range' start count).map g) := by
  intro count
  induction count with
  | zero => intro start; simp [scenarioRows]
  | succ n ih =>
      intro start
      simp [scenarioRows, h start, ih (start + 1), List.range'_succ]

lemma buildScenario_eq {yearFn : ℕ → Option (ℚ × ℚ × ℚ)} {g : ℕ → ℚ × ℚ × ℚ}
    (h : ∀ y, yearFn y = some (g y)) :
    buildScenario yearFn = some
      ⟨(List.range' 0 YEARS).map (fun y => (g y).1),
       (List.range' 0 YEARS).map (fun y => (g y).2.1),
       (List.range' 0 YEARS).map (fun y => (g y).2.2)⟩ := by
  simp [buildScenario, scenarioRows_eq h YEARS 0, List.map_map, Function.comp]

lemma baseline_year_eq {v : Vessel} {ef pr : ℚ}
    (he : dictLookup EMISSION_FACTORS v.fuel_type = some ef)
    (hp : dictLookup FUEL_PRICES v.fuel_type = some pr) (tr op : ℚ) (y : ℕ) :
    baseline_year v tr op y = some
      (v.annual_fuel_consumption * get_degradation_multiplier y * ef,
       v.annual_fuel_consumption * get_degradation_multiplier y * pr +
         v.annual_fuel_consumption * get_degradation_multiplier y * ef * tr + op,
       -(v.annual_fuel_consumption * get_degradation_multiplier y * pr +
         v.annual_fuel_consumption * get_degradation_multiplier y * ef * tr + op)) := by
  simp [baseline_year, calculate_emissions, calculate_carbon_tax, he, hp]

lemma tech_year_eq {v : Vessel} {ef pr : ℚ}
    (he : dictLookup EMISSION_FACTORS v.fuel_type = some ef)
    (hp : dictLookup FUEL_PRICES v.fuel_type = some pr) (tr op cx g : ℚ) (y : ℕ) :
    tech_year v tr op cx g y = some
      (v.annual_fuel_consumption * get_degradation_multiplier y * (1 - g) * ef,
       v.annual_fuel_consumption * get_degradation_multiplier y * (1 - g) * pr +
         v.annual_fuel_consumption * get_degradation_multiplier y * (1 - g) * ef * tr + op +
         (if y = 0 then cx else 0),
       -(v.annual_fuel_consumption * get_degradation_multiplier y * (1 - g) * pr +
         v.annual_fuel_consumption * get_degradation_multiplier y * (1 - g) * ef * tr + op +
         (if y = 0 then cx else 0))) := by
  simp [tech_year, apply_tech_efficiency_reduction, calculate_emissions, calculate_carbon_tax,
    he, hp]

lemma switch_year_eq {f : String} {ef pr : ℚ}
    (he : dictLookup EMISSION_FACTORS f = some ef)
    (hp : dictLookup FUEL_PRICES f = some pr) (v : Vessel) (tr op cx : ℚ) (y : ℕ) :
    switch_year v f tr op cx y = some
      (v.annual_fuel_consumption * get_degradation_multiplier y * ef,
       v.annual_fuel_consumption * get_degradation_multiplier y * pr +
         v.annual_fuel_consumption * get_degradation_multiplier y * ef * tr + op +
         (if y = 0 then cx else 0),
       -(v.annual_fuel_consumption * get_degradation_multiplier y * pr +
         v.annual_fuel_consumption * get_degradation_multiplier y * ef * tr + op +
         (if y = 0 then cx else 0))) := by
  simp [switch_year, calculate_emissions, calculate_carbon_tax, he, hp]

lemma baseline_scenario_eq {v : Vessel} {ef pr : ℚ}
    (he : dictLookup EMISSION_FACTORS v.fuel_type = some ef)
    (hp : dictLookup FUEL_PRICES v.fuel_type = some pr) (tr op : ℚ) :
    baseline_scenario v tr op = some
      ⟨(List.range' 0 YEARS).map (fun y =>
          v.annual_fuel_consumption * get_degradation_multiplier y * ef),
       (List.range' 0 YEARS).map (fun y =>
          v.annual_fuel_consumption * get_degradation_multiplier y * pr +
            v.annual_fuel_consumption * get_degradation_multiplier y * ef * tr + op),
       (List.range' 0 YEARS).map (fun y =>
          -(v.annual_fuel_consumption * get_degradation_multiplier y * pr +
            v.annual_fuel_consumption * get_degradation_multiplier y * ef * tr + op))⟩ :=
  buildScenario_eq (fun y => baseline_year_eq he hp tr op y)

lemma tech_scenario_eq {v : Vessel} {ef pr : ℚ}
    (he : dictLookup EMISSION_FACTORS v.fuel_type = some ef)
    (hp : dictLookup FUEL_PRICES v.fuel_type = some pr) (tr op cx g : ℚ) :
    tech_scenario v tr op cx g = some
      ⟨(List.range' 0 YEARS).map (fun y =>
          v.annual_fuel_consumption * get_degradation_multiplier y * (1 - g) * ef),
       (List.range' 0 YEARS).map (fun y =>
          v.annual_fuel_consumption * get_degradation_multiplier y * (1 - g) * pr +
            v.annual_fuel_consumption * get_degradation_multiplier y * (1 - g) * ef * tr + op +
            (if y = 0 then cx else 0)),
       (List.range' 0 YEARS).map (fun y =>
          -(v.annual_fuel_consumption * get_degradation_multiplier y * (1 - g) * pr +
            v.annual_fuel_consumption * get_degradation_multiplier y * (1 - g) * ef * tr + op +
            (if y = 0 then cx else 0)))⟩ :=
  buildScenario_eq (fun y => tech_year_eq he hp tr op cx g y)

lemma switch_scenario_eq {f : String} {ef pr : ℚ}
    (he : dictLookup EMISSION_FACTORS f = some ef)
    (hp : dictLookup FUEL_PRICES f = some pr) (v : Vessel) (tr op cx : ℚ) :
    switch_scenario v f tr op cx = some
      ⟨(List.range' 0 YEARS).map (fun y =>
          v.annual_fuel_consumption * get_degradation_multiplier y * ef),
       (List.range' 0 YEARS).map (fun y =>
          v.annual_fuel_consumption * get_degradation_multiplier y * pr +
            v.annual_fuel_consumption * get_degradation_multiplier y * ef * tr + op +
            (if y = 0 then cx else 0)),
       (List.range' 0 YEARS).map (fun y =>
          -(v.annual_fuel_consumption * get_degradation_multiplier y * pr +
            v.annual_fuel_consumption * get_degradation_multiplier y * ef * tr + op +
            (if y = 0 then cx else 0)))⟩ :=
  buildScenario_eq (fun y => switch_year_eq he hp v tr op cx y)

lemma year_cost_nonneg {fuelAmt ef pr tr op extra : ℚ} (h1 : 0 ≤ fuelAmt) (h2 : 0 ≤ ef)
    (h3 : 0 ≤ pr) (h4 : 0 ≤ tr) (h5 : 0 ≤ op) (h6 : 0 ≤ extra) :
    0 ≤ fuelAmt * pr + fuelAmt * ef * tr + op + extra :=
  add_nonneg (add_nonneg (add_nonneg (mul_nonneg h1 h3) (mul_nonneg (mul_nonneg h1 h2) h4)) h5) h6

lemma ite_capex_nonneg {cx : ℚ} (hcx : 0 ≤ cx) (y : ℕ) : 0 ≤ (if y = 0 then cx else 0) := by
  split_ifs <;> simp [hcx]

lemma switch_scenarios_list_spec (v : Vessel) (tr op cx : ℚ) :
    ∀ l : List String, (∀ f ∈ l, f ∈ fuelKeys) →
      ∃ out, switch_scenarios_list v tr op cx l = some out ∧
        out.length = l.length ∧
        out.map Prod.fst = l.map (fun f => "Switch to " ++ f) ∧
        (∀ p ∈ out, p.2.emissions.length = YEARS ∧ p.2.costs.length = YEARS) ∧
        (0 ≤ v.annual_fuel_consumption → 0 ≤ tr → 0 ≤ op → 0 ≤ cx →
          ∀ p ∈ out, ∀ cf ∈ p.2.cash_flows, cf ≤ 0) := by
  intro l
  induction l with
  | nil => exact fun _ => ⟨[], rfl, rfl, rfl, by simp, fun _ _ _ _ => by simp⟩
  | cons f rest ih =>
      intro hl
      obtain ⟨ef, pr, he, hp, hef, hpr⟩ := fuel_lookups f (hl f (by simp))
      obtain ⟨out, hout, hlen, hlabels, hlens, hsign⟩ := ih (fun x hx => hl x (by simp [hx]))
      refine ⟨("Switch to " ++ f,
          ⟨(List.range' 0 YEARS).map (fun y =>
              v.annual_fuel_consumption * get_degradation_multiplier y * ef),
           (List.range' 0 YEARS).map (fun y =>
              v.annual_fuel_consumption * get_degradation_multiplier y * pr +
                v.annual_fuel_consumption * get_degradation_multiplier y * ef * tr + op +
                (if y = 0 then cx else 0)),
           (List.range' 0 YEARS).map (fun y =>
              -(v.annual_fuel_consumption * get_degradation_multiplier y * pr +
                v.annual_fuel_consumption * get_degradation_multiplier y * ef * tr + op +
                (if y = 0 then cx else 0)))⟩) :: out, ?_, ?_, ?_, ?_, ?_⟩
      · simp only [switch_scenarios_list, switch_scenario_eq he hp v tr op cx, hout,
          Option.bind_eq_bind, Option.some_bind, Option.pure_def]
      · simp [hlen]
      · simp [hlabels]
      · intro p hp2
        rcases List.mem_cons.mp hp2 with h | h
        · subst h; simp [YEARS]
        · exact hlens p h
      · intro hafc htr hop hcx p hp2 cf hcf
        rcases List.mem_cons.mp hp2 with h | h
        · subst h
          simp only [List.mem_map] at hcf
          obtain ⟨y, _, rfl⟩ := hcf
          have hmul : 0 ≤ v.annual_fuel_consumption * get_degradation_multiplier y :=
            mul_nonneg hafc (degradation_nonneg y)
          exact neg_nonpos.mpr (year_cost_nonneg hmul hef hpr htr hop (ite_capex_nonneg hcx y))
        · exact hsign hafc htr hop hcx p h cf hcf

/-! ## C10: tech-upgrade emissions are the baseline scaled by 1 - gain -/

/-- C10: for every run with a supported fuel type, the Tech Upgrade emissions
series is exactly the Baseline emissions series scaled pointwise by
(1 - efficiencyGain): both use the same fuel and degradation multiplier. -/
theorem C10_tech_emissions_scaled (v : Vessel) (tr op cx g : ℚ) (hf : v.fuel_type ∈ fuelKeys) :
    (baseline_scenario v tr op).isSome = true ∧
    (tech_scenario v tr op cx g).map ScenarioData.emissions =
      (baseline_scenario v tr op).map (fun s => s.emissions.map (fun e => (1 - g) * e)) := by
  obtain ⟨ef, pr, he, hp, _, _⟩ := fuel_lookups v.fuel_type hf
  rw [baseline_scenario_eq he hp tr op, tech_scenario_eq he hp tr op cx g]
  refine ⟨rfl, ?_⟩
  simp only [Option.map_some']
  congr 1
  rw [List.map_map]
  apply List.map_congr_left
  intro y _
  simp only [Function.comp]
  ring

/-- C10 witness: the scaling equation evaluated at the default inputs
(VLSFO vessel, consumption 10000, tax 100, opex 20000, capex 500000,
gain 0.1). -/
theorem C10_tech_emissions_scaled_witness :
    (baseline_scenario ⟨50000, "VLSFO", 10000⟩ 100 20000).isSome = true ∧
    (tech_scenario ⟨50000, "VLSFO", 10000⟩ 100 20000 500000 0.1).map ScenarioData.emissions =
      (baseline_scenario ⟨50000, "VLSFO", 10000⟩ 100 20000).map
        (fun s => s.emissions.map (fun e => (1 - 0.1) * e)) :=
  C10_tech_emissions_scaled ⟨50000, "VLSFO", 10000⟩ 100 20000 500000 0.1 (by decide)

/-! ## C2: every cash flow is nonpositive -/

/-- C2: under the expected input constraints (consumption ≥ 0, tax ≥ 0,
opex ≥ 0, capex ≥ 0, gain in [0, 1]) every element of every scenario's
cash-flow sequence, across Baseline, Tech Upgrade and all fuel switches,
is ≤ 0. -/
theorem C2_cash_flows_nonpositive (v : Vessel) (tr op cx g : ℚ) (hf : v.fuel_type ∈ fuelKeys)
    (hafc : 0 ≤ v.annual_fuel_consumption) (htr : 0 ≤ tr) (hop : 0 ≤ op) (hcx : 0 ≤ cx)
    (hg0 : 0 ≤ g) (hg1 : g ≤ 1) :
    (run_scenarios v tr op cx g).all
      (fun scs => scs.all (fun sc => sc.2.cash_flows.all (fun cf => decide (cf ≤ 0)))) = true := by
  obtain ⟨ef, pr, he, hp, hef, hpr⟩ := fuel_lookups v.fuel_type hf
  obtain ⟨out, hout, _, _, _, hsign⟩ := switch_scenarios_list_spec v tr op cx
    (fuelKeys.filter (fun af => af != v.fuel_type))
    (fun x hx => (List.mem_filter.mp hx).1)
  rw [run_scenarios]
  rw [baseline_scenario_eq he hp tr op, tech_scenario_eq he hp tr op cx g, hout]
  simp only [Option.bind_eq_bind, Option.some_bind, Option.pure_def, Option.all_some]
  have hbase : ((List.range' 0 YEARS).map (fun y =>
      -(v.annual_fuel_consumption * get_degradation_multiplier y * pr +
        v.annual_fuel_consumption * get_degradation_multiplier y * ef * tr + op))).all
      (fun cf => decide (cf ≤ 0)) = true := by
    rw [List.all_eq_true]
    intro cf hcf
    simp only [List.mem_map] at hcf
    obtain ⟨y, _, rfl⟩ := hcf
    have hmul : 0 ≤ v.annual_fuel_consumption * get_degradation_multiplier y :=
      mul_nonneg hafc (degradation_nonneg y)
    have h0 : 0 ≤ v.annual_fuel_consumption * get_degradation_multiplier y * pr +
        v.annual_fuel_consumption * get_degradation_multiplier y * ef * tr + op + 0 :=
      year_cost_nonneg hmul hef hpr htr hop le_rfl
    rw [add_zero] at h0
    simp only [decide_eq_true_eq]
    exact neg_nonpos.mpr h0
  have htech : ((List.range' 0 YEARS).map (fun y =>
      -(v.annual_fuel_consumption * get_degradation_multiplier y * (1 - g) * pr +
        v.annual_fuel_consumption * get_degradation_multiplier y * (1 - g) * ef * tr + op +
        (if y = 0 then cx else 0)))).all (fun cf => decide (cf ≤ 0)) = true := by
    rw [List.all_eq_true]
    intro cf hcf
    simp only [List.mem_map] at hcf
    obtain ⟨y, _, rfl⟩ := hcf
    have hmul : 0 ≤ v.annual_fuel_consumption * get_degradation_multiplier y * (1 - g) :=
      mul_nonneg (mul_nonneg hafc (degradation_nonneg y)) (by linarith)
    simp only [decide_eq_true_eq]
    exact neg_nonpos.mpr (year_cost_nonneg hmul hef hpr htr hop (ite_capex_nonneg hcx y))
  have halt : out.all (fun sc => sc.2.cash_flows.all (fun cf => decide (cf ≤ 0))) = true := by
    rw [List.all_eq_true]
    intro p hp2
    rw [List.all_eq_true]
    intro cf hcf
    simpa using hsign hafc htr hop hcx p hp2 cf hcf
  rw [List.all_eq_true]
  intro sc hsc
  simp only [List.mem_cons] at hsc
  rcases hsc with rfl | rfl | h
  · exact hbase
  · exact htech
  · rw [List.all_eq_true] at halt
    exact halt sc h

/-- C2 witness: the all-nonpositive check evaluated at the default inputs. -/
theorem C2_cash_flows_nonpositive_witness :
    (run_scenarios ⟨50000, "VLSFO", 10000⟩ 100 20000 500000 0.1).all
      (fun scs => scs.all (fun sc => sc.2.cash_flows.all (fun cf => decide (cf ≤ 0)))) = true :=
  C2_cash_flows_nonpositive ⟨50000, "VLSFO", 10000⟩ 100 20000 500000 0.1 (by decide)
    (by norm_num) (by norm_num) (by norm_num) (by norm_num) (by norm_num) (by norm_num)

/-! ## C7: scenario counts and series lengths -/

lemma filter_fuelKeys_length {f : String} (hf : f ∈ fuelKeys) :
    (fuelKeys.filter (fun af => af != f)).length = 4 := by
  simp only [fuelKeys, dictKeys, EMISSION_FACTORS, List.map_cons, List.map_nil,
    List.mem_cons, List.not_mem_nil, or_false] at hf
  rcases hf with h | h | h | h | h <;> subst h <;> rfl

/-- C7: every run yields exactly 1 Baseline + 1 Tech Upgrade +
(numFuelTypes - 1) fuel-switch scenarios, i.e. 6 for the 5-fuel table, and
every scenario's emissions and costs series have length YEARS = 10. -/
theorem C7_scenario_counts (v : Vessel) (tr op cx g : ℚ) (hf : v.fuel_type ∈ fuelKeys) :
    (run_scenarios v tr op cx g).map List.length = some (1 + 1 + (fuelKeys.length - 1)) ∧
    (run_scenarios v tr op cx g).map List.length = some 6 ∧
    (run_scenarios v tr op cx g).map (fun scs => scs.map Prod.fst) =
      some ("Baseline" :: "Tech Upgrade" ::
        (fuelKeys.filter (fun af => af != v.fuel_type)).map (fun f => "Switch to " ++ f)) ∧
    (run_scenarios v tr op cx g).all (fun scs => scs.all (fun sc =>
      decide (sc.2.emissions.length = YEARS) && decide (sc.2.costs.length = YEARS))) = true := by
  obtain ⟨ef, pr, he, hp, _, _⟩ := fuel_lookups v.fuel_type hf
  obtain ⟨out, hout, hlen, hlabels, hlens, _⟩ := switch_scenarios_list_spec v tr op cx
    (fuelKeys.filter (fun af => af != v.fuel_type))
    (fun x hx => (List.mem_filter.mp hx).1)
  have hfl := filter_fuelKeys_length hf
  rw [run_scenarios]
  rw [baseline_scenario_eq he hp tr op, tech_scenario_eq he hp tr op cx g, hout]
  simp only [Option.bind_eq_bind, Option.some_bind, Option.pure_def, Option.all_some,
    Option.map_some']
  refine ⟨?_, ?_, ?_, ?_⟩
  · simp only [List.length_cons, hlen, hfl]
    norm_num [fuelKeys, dictKeys, EMISSION_FACTORS]
  · simp only [List.length_cons, hlen, hfl]
  · simp [hlabels]
  · rw [List.all_eq_true]
    intro sc hsc
    simp only [List.mem_cons] at hsc
    rcases hsc with rfl | rfl | h
    · simp
    · simp
    · have hsc2 := hlens sc h
      simp [hsc2.1, hsc2.2]

/-- C7 witness: the counts and lengths evaluated at the default inputs. -/
theorem C7_scenario_counts_witness :
    (run_scenarios ⟨50000, "VLSFO", 10000⟩ 100 20000 500000 0.1).map List.length =
      some (1 + 1 + (fuelKeys.length - 1)) ∧
    (run_scenarios ⟨50000, "VLSFO", 10000⟩ 100 20000 500000 0.1).map List.length = some 6 ∧
    (run_scenarios ⟨50000, "VLSFO", 10000⟩ 100 20000 500000 0.1).map (fun scs => scs.map Prod.fst) =
      some ("Baseline" :: "Tech Upgrade" ::
        (fuelKeys.filter (fun af => af != ((⟨50000, "VLSFO", 10000⟩ : Vessel)).fuel_type)).map
          (fun f => "Switch to " ++ f)) ∧
    (run_scenarios ⟨50000, "VLSFO", 10000⟩ 100 20000 500000 0.1).all
      (fun scs => scs.all (fun sc =>
        decide (sc.2.emissions.length = YEARS) && decide (sc.2.costs.length = YEARS))) = true :=
  C7_scenario_counts ⟨50000, "VLSFO", 10000⟩ 100 20000 500000 0.1 (by decide)

/-! ## C9: end-to-end year-0 numbers at the default inputs -/

/-- C9: for consumption 10000 t of VLSFO, tax 100, opex 20000, capex 500000,
gain 0.1: Baseline year-0 emissions are 31140 tCO2 and cost 9134000; the Tech
Upgrade year-0 fuel burn is 9000 t, emissions 28026 tCO2 and cost 8722600
(CAPEX included); the Tech Upgrade year-1 cost 8304626 contains no CAPEX,
and Baseline never adds CAPEX. -/
theorem C9_end_to_end :
    (baseline_scenario ⟨50000, "VLSFO", 10000⟩ 100 20000).map
        (fun s => (s.emissions.head?, s.costs.head?)) = some (some 31140, some 9134000) ∧
    apply_tech_efficiency_reduction (10000 * get_degradation_multiplier 0) 0.1 = 9000 ∧
    (tech_scenario ⟨50000, "VLSFO", 10000⟩ 100 20000 500000 0.1).map
        (fun s => (s.emissions.head?, s.costs.head?, s.costs.getD 1 0)) =
      some (some 28026, some 8722600, 8304626) := by
  have he : dictLookup EMISSION_FACTORS (Vessel.mk 50000 "VLSFO" 10000).fuel_type =
      some 3.114 := rfl
  have hp : dictLookup FUEL_PRICES (Vessel.mk 50000 "VLSFO" 10000).fuel_type = some 600 := rfl
  refine ⟨?_, ?_, ?_⟩
  · rw [baseline_scenario_eq he hp 100 20000]
    simp only [Option.map_some']
    rw [show YEARS = 9 + 1 from rfl, List.range'_succ]
    simp only [List.map_cons, List.head?_cons]
    norm_num [get_degradation_multiplier, EFFICIENCY_DEGRADATION_RATE]
  · norm_num [apply_tech_efficiency_reduction, get_degradation_multiplier,
      EFFICIENCY_DEGRADATION_RATE]
  · rw [tech_scenario_eq he hp 100 20000 500000 0.1]
    simp only [Option.map_some']
    rw [show YEARS = 8 + 1 + 1 from rfl, List.range'_succ, List.range'_succ]
    simp only [List.map_cons, List.head?_cons, List.getD_cons_succ, List.getD_cons_zero]
    norm_num [get_degradation_multiplier, EFFICIENCY_DEGRADATION_RATE, DRYDOCK_CYCLE]

/-! ## C8: summary metrics and the table's payback column -/

/-- Checks that a table cell is a legitimate payback value: an integer year
count or the exceeds-horizon sentinel string "> 10" (for YEARS = 10), and in
particular not the placeholder "-". -/
def isIntOrSentinel : ℕ ⊕ String → Bool
  | Sum.inl _ => true
  | Sum.inr s => s == "> " ++ toString YEARS

lemma isIntOrSentinel_loop (cfs : List ℚ) :
    ∀ (acc : ℚ) (i : ℕ), isIntOrSentinel (calculate_payback_period_loop cfs acc i) = true := by
  induction cfs with
  | nil => intro acc i; simp [calculate_payback_period_loop, isIntOrSentinel]
  | cons cf rest ih =>
      intro acc i
      by_cases h : 0 ≤ acc + cf
      · simp [calculate_payback_period_loop, h, isIntOrSentinel]
      · simp only [calculate_payback_period_loop]
        rw [if_neg h]
        exact ih (acc + cf) (i + 1)

lemma isIntOrSentinel_payback (cfs : List ℚ) :
    isIntOrSentinel (calculate_payback_period cfs) = true :=
  isIntOrSentinel_loop cfs 0 0

lemma dictLookup_eq_none {α : Type} (key : String) :
    ∀ table : List (String × α), (∀ k ∈ dictKeys table, k ≠ key) →
      dictLookup table key = none := by
  intro table
  induction table with
  | nil => intro _; rfl
  | cons p rest ih =>
      intro h
      obtain ⟨k, v⟩ := p
      rw [dictLookup_cons, if_neg (h k (by simp [dictKeys]))]
      exact ih (fun x hx => h x (by simp [dictKeys] at hx ⊢; exact Or.inr hx))

lemma dictLookup_isSome_of_mem {α : Type} (key : String) :
    ∀ table : List (String × α), key ∈ dictKeys table →
      ∃ v, dictLookup table key = some v := by
  intro table
  induction table with
  | nil => intro h; simp [dictKeys] at h
  | cons p rest ih =>
      intro h
      obtain ⟨k, v⟩ := p
      by_cases hk : k = key
      · exact ⟨v, by rw [dictLookup_cons, if_pos hk]⟩
      · have : key ∈ dictKeys rest := by
          simp [dictKeys] at h ⊢
          rcases h with h | h
          · exact absurd h.symm hk
          · exact h
        obtain ⟨w, hw⟩ := ih this
        exact ⟨w, by rw [dictLookup_cons, if_neg hk, hw]⟩

lemma dictLookup_mem_values {α : Type} (key : String) :
    ∀ (table : List (String × α)) (v : α), dictLookup table key = some v →
      v ∈ table.map Prod.snd := by
  intro table
  induction table with
  | nil => intro v h; simp [dictLookup] at h
  | cons p rest ih =>
      intro v h
      obtain ⟨k, w⟩ := p
      rw [dictLookup_cons] at h
      by_cases hk : k = key
      · rw [if_pos hk] at h
        simp at h
        simp [h]
      · rw [if_neg hk] at h
        simp [ih v h]

lemma npv_discount_some (cfs : List ℚ) : ∃ n, calculate_npv cfs DISCOUNT_RATE = some n :=
  ⟨_, calculate_npv_eq (by norm_num [DISCOUNT_RATE]) cfs⟩

lemma switch_summaries_list_spec (v : Vessel) (tr op cx : ℚ) :
    ∀ l : List String, (∀ f ∈ l, f ∈ fuelKeys) →
      ∃ ns ps, switch_summaries_list v tr op cx l = some (ns, ps) ∧
        dictKeys ns = l.map (fun f => "Switch to " ++ f) ∧
        dictKeys ps = l.map (fun f => "Switch to " ++ f) ∧
        (∀ q ∈ ps, isIntOrSentinel q.2 = true) := by
  intro l
  induction l with
  | nil => exact fun _ => ⟨[], [], rfl, rfl, rfl, by simp⟩
  | cons f rest ih =>
      intro hl
      obtain ⟨ef, pr, he, hp, _, _⟩ := fuel_lookups f (hl f (by simp))
      obtain ⟨ns, ps, hout, hns, hps, hint⟩ := ih (fun x hx => hl x (by simp [hx]))
      obtain ⟨n, hn⟩ := npv_discount_some
        ((List.range' 0 YEARS).map (fun y =>
          -(v.annual_fuel_consumption * get_degradation_multiplier y * pr +
            v.annual_fuel_consumption * get_degradation_multiplier y * ef * tr + op +
            (if y = 0 then cx else 0))))
      refine ⟨("Switch to " ++ f, n) :: ns,
        ("Switch to " ++ f, calculate_payback_period
          ((List.range' 0 YEARS).map (fun y =>
            -(v.annual_fuel_consumption * get_degradation_multiplier y * pr +
              v.annual_fuel_consumption * get_degradation_multiplier y * ef * tr + op +
              (if y = 0 then cx else 0))))) :: ps, ?_, ?_, ?_, ?_⟩
      · simp only [switch_summaries_list, switch_scenario_eq he hp v tr op cx,
          Option.bind_eq_bind, Option.some_bind, Option.pure_def, hn, hout]
      · simp only [dictKeys, List.map_cons] at hns ⊢
        simp [hns]
      · simp only [dictKeys, List.map_cons] at hps ⊢
        simp [hps]
      · intro q hq2
        rcases List.mem_cons.mp hq2 with h | h
        · subst h; exact isIntOrSentinel_payback _
        · exact hint q h

lemma table_col_facts {npvs : List (String × ℚ)} {pbs : List (String × (ℕ ⊕ String))}
    (hk : dictKeys npvs = "Baseline" :: dictKeys pbs)
    (hne : ∀ k ∈ dictKeys pbs, k ≠ "Baseline")
    (hvals : ∀ q ∈ pbs, isIntOrSentinel q.2 = true) :
    dictLookup pbs "Baseline" = none ∧
    (table_payback_column npvs pbs).head? = some (Sum.inr "-") ∧
    (table_payback_column npvs pbs).tail.all isIntOrSentinel = true := by
  have hnone := dictLookup_eq_none "Baseline" pbs hne
  refine ⟨hnone, ?_, ?_⟩
  · rw [table_payback_column, hk]
    simp [hnone]
  · rw [table_payback_column, hk]
    simp only [List.map_cons, List.tail_cons]
    rw [List.all_eq_true]
    intro cell hcell
    simp only [List.mem_map] at hcell
    obtain ⟨k, hk2, rfl⟩ := hcell
    obtain ⟨w, hw⟩ := dictLookup_isSome_of_mem k pbs hk2
    rw [hw]
    have hwv := dictLookup_mem_values k pbs w hw
    simp only [List.mem_map] at hwv
    obtain ⟨q, hq2, rfl⟩ := hwv
    simpa using hvals q hq2

lemma run_summary_spec (v : Vessel) (tr op cx g : ℚ) (hf : v.fuel_type ∈ fuelKeys) :
    ∃ npvs pbs, run_summary v tr op cx g = some (npvs, pbs) ∧
      dictKeys npvs = "Baseline" :: dictKeys pbs ∧
      dictKeys pbs = "Tech Upgrade" ::
        (fuelKeys.filter (fun af => af != v.fuel_type)).map (fun f2 => "Switch to " ++ f2) ∧
      (∀ q ∈ pbs, isIntOrSentinel q.2 = true) ∧
      dictLookup pbs "Baseline" = none ∧
      (table_payback_column npvs pbs).head? = some (Sum.inr "-") ∧
      (table_payback_column npvs pbs).tail.all isIntOrSentinel = true := by
  obtain ⟨ef, pr, he, hp, _, _⟩ := fuel_lookups v.fuel_type hf
  obtain ⟨ns, ps, hsw, hns, hps, hint⟩ := switch_summaries_list_spec v tr op cx
    (fuelKeys.filter (fun af => af != v.fuel_type))
    (fun x hx => (List.mem_filter.mp hx).1)
  obtain ⟨nb, hnb⟩ := npv_discount_some
    ((List.range' 0 YEARS).map (fun y =>
      -(v.annual_fuel_consumption * get_degradation_multiplier y * pr +
        v.annual_fuel_consumption * get_degradation_multiplier y * ef * tr + op)))
  obtain ⟨nt, hnt⟩ := npv_discount_some
    ((List.range' 0 YEARS).map (fun y =>
      -(v.annual_fuel_consumption * get_degradation_multiplier y * (1 - g) * pr +
        v.annual_fuel_consumption * get_degradation_multiplier y * (1 - g) * ef * tr + op +
        (if y = 0 then cx else 0))))
  simp only [dictKeys] at hns hps
  refine ⟨("Baseline", nb) :: ("Tech Upgrade", nt) :: ns,
    ("Tech Upgrade", calculate_payback_period
      ((List.range' 0 YEARS).map (fun y =>
        -(v.annual_fuel_consumption * get_degradation_multiplier y * (1 - g) * pr +
          v.annual_fuel_consumption * get_degradation_multiplier y * (1 - g) * ef * tr + op +
          (if y = 0 then cx else 0))))) :: ps, ?_, ?_, ?_, ?_, ?_⟩
  · simp only [run_summary, baseline_scenario_eq he hp tr op,
      tech_scenario_eq he hp tr op cx g, Option.bind_eq_bind, Option.some_bind,
      Option.pure_def, hnb, hnt, hsw]
  · simp only [dictKeys, List.map_cons]
    rw [hns, hps]
  · simp only [dictKeys, List.map_cons]
    rw [hps]
  · intro q hq2
    rcases List.mem_cons.mp hq2 with h | h
    · subst h; exact isIntOrSentinel_payback _
    · exact hint q h
  · apply table_col_facts
    · simp only [dictKeys, List.map_cons]
      rw [hns, hps]
    · intro k hk2
      simp only [dictKeys, List.map_cons, List.mem_cons] at hk2
      rcases hk2 with rfl | hk2
      · decide
      · rw [hps] at hk2
        simp only [List.mem_map] at hk2
        obtain ⟨f2, hf2, rfl⟩ := hk2
        have h5 := (List.mem_filter.mp hf2).1
        simp only [fuelKeys, dictKeys, EMISSION_FACTORS, List.map_cons, List.map_nil,
          List.mem_cons, List.not_mem_nil, or_false] at h5
        rcases h5 with h | h | h | h | h <;> subst h <;> decide
    · intro q hq2
      rcases List.mem_cons.mp hq2 with h | h
      · subst h; exact isIntOrSentinel_payback _
      · exact hint q h

/-- C8 amended: every run with a supported fuel yields summary dicts whose
NPV table lists all scenarios, but payback values exist only for Tech Upgrade
and the fuel switches (each an integer year count or the "> 10" sentinel):
the Baseline scenario has no payback entry and its table cell is rendered via
the get default as the placeholder "-". -/
theorem C8_payback_column (v : Vessel) (tr op cx g : ℚ) (hf : v.fuel_type ∈ fuelKeys) :
    (run_summary v tr op cx g).isSome = true ∧
    (run_summary v tr op cx g).all (fun s =>
      ((dictKeys s.1 == "Baseline" :: dictKeys s.2) &&
       ((table_payback_column s.1 s.2).head? == some (Sum.inr "-")) &&
       (table_payback_column s.1 s.2).tail.all isIntOrSentinel)) = true := by
  obtain ⟨npvs, pbs, hrun, hk, hkeys, hvals, hnone, hhead, htail⟩ :=
    run_summary_spec v tr op cx g hf
  rw [hrun]
  refine ⟨rfl, ?_⟩
  simp only [Option.all_some]
  simp [hk, hhead, htail]
  decide

/-- C8 counterexample: at the default inputs the payback_summary dict has no
entry for the Baseline scenario, and the first (Baseline) cell of the table's
payback column is exactly the placeholder string "-", contradicting the claim
that every scenario's metrics include a payback value that is never a
placeholder. -/
theorem C8_counterexample :
    (run_summary ⟨50000, "VLSFO", 10000⟩ 100 20000 500000 0.1).map
      (fun s => (dictLookup s.2 "Baseline", (table_payback_column s.1 s.2).head?)) =
    some (none, some (Sum.inr "-")) := by
  obtain ⟨npvs, pbs, hrun, hk, hkeys, hvals, hnone, hhead, htail⟩ :=
    run_summary_spec ⟨50000, "VLSFO", 10000⟩ 100 20000 500000 0.1 (by decide)
  rw [hrun]
  simp [hnone, hhead]

/-- C8 witness: the amended column facts evaluated at the default inputs. -/
theorem C8_payback_column_witness :
    (run_summary ⟨50000, "VLSFO", 10000⟩ 100 20000 500000 0.1).isSome = true ∧
    (run_summary ⟨50000, "VLSFO", 10000⟩ 100 20000 500000 0.1).all (fun s =>
      ((dictKeys s.1 == "Baseline" :: dictKeys s.2) &&
       ((table_payback_column s.1 s.2).head? == some (Sum.inr "-")) &&
       (table_payback_column s.1 s.2).tail.all isIntOrSentinel)) = true :=
  C8_payback_column ⟨50000, "VLSFO", 10000⟩ 100 20000 500000 0.1 (by decide)

end VesselEfficiency
